import Mathlib

/-!
Verification of the Trainings-Backoffice core logic against its specification.

The definitions below are shallow embeddings of the Python source:
  * `backend/app/models/core.py`      — status / type / format validation
  * `backend/app/services/checklist.py` — default task generation
  * `backend/app/utils/search.py`     — LIKE-wildcard escaping for global search
  * `backend/app/flask_app.py`        — training update and application acceptance handlers
  * `backend/app/routers/trainings.py` — FastAPI training listing and status endpoints

Database tables are modelled as lists of rows; an HTTP handler becomes a pure
function from the table state (plus request data) to the new table state and a
response.  A handler that returns an error before its single `commit` leaves
the state unchanged, which the embeddings reflect by returning the input state
in every error branch.
-/

/-- The nine training statuses (`TRAINING_STATUSES` in `models/core.py`). -/
def TRAINING_STATUSES : List String :=
  [ "lead"
  , "appointment_scheduled"
  , "initial_contact"
  , "proposal_sent"
  , "trainer_outreach"
  , "trainer_confirmed"
  , "planning"
  , "delivered"
  , "invoiced" ]

/-- The two training types (`TRAINING_TYPES` in `models/core.py`). -/
def TRAINING_TYPES : List String := ["online", "classroom"]

/-- The two training formats (`TRAINING_FORMATS` in `models/core.py`). -/
def TRAINING_FORMATS : List String := ["inhouse", "public"]

/-- The allowed-transition dictionary (`ALLOWED_STATUS_TRANSITIONS` in
`models/core.py`).  A Python dict lookup that may miss becomes an `Option`. -/
def ALLOWED_STATUS_TRANSITIONS : String → Option (List String)
  | "lead" => some ["appointment_scheduled", "initial_contact", "proposal_sent"]
  | "appointment_scheduled" => some ["initial_contact", "proposal_sent", "lead"]
  | "initial_contact" => some ["proposal_sent", "lead"]
  | "proposal_sent" => some ["trainer_outreach", "lead"]
  | "trainer_outreach" => some ["trainer_confirmed", "proposal_sent"]
  | "trainer_confirmed" => some ["planning", "trainer_outreach"]
  | "planning" => some ["delivered", "trainer_confirmed"]
  | "delivered" => some ["invoiced", "planning"]
  | "invoiced" => some ["delivered"]
  | _ => none

/-- `validate_status_transition` from `models/core.py`: returns the pair
`(is_valid, error_message)`, checking in order: the new status is a known
status, the no-op case, the current status is a key of the dictionary, and
membership of the new status in the allow-list. -/
def validate_status_transition (current_status new_status : String) : Bool × String :=
  if new_status ∉ TRAINING_STATUSES then
    (false, "Ungültiger Status: " ++ new_status ++ ". Erlaubt: "
      ++ String.intercalate ", " TRAINING_STATUSES)
  else if current_status = new_status then
    (true, "")
  else
    match ALLOWED_STATUS_TRANSITIONS current_status with
    | none => (false, "Ungültiger aktueller Status: " ++ current_status)
    | some allowed =>
        if new_status ∉ allowed then
          (false, "Status-Übergang von '" ++ current_status ++ "' zu '" ++ new_status
            ++ "' nicht erlaubt. Erlaubt: " ++ String.intercalate ", " allowed)
        else
          (true, "")

/-- `validate_training_type` from `models/core.py`.  The Python guard is
`if training_type and training_type not in TRAINING_TYPES`; for a string
argument, truthiness means non-emptiness, so the empty string is accepted. -/
def validate_training_type (training_type : String) : Bool × String :=
  if training_type ≠ "" ∧ training_type ∉ TRAINING_TYPES then
    (false, "Ungültiger Trainingstyp: " ++ training_type ++ ". Erlaubt: "
      ++ String.intercalate ", " TRAINING_TYPES)
  else
    (true, "")

/-- `validate_training_format` from `models/core.py`, with the same truthiness
guard as `validate_training_type`. -/
def validate_training_format (training_format : String) : Bool × String :=
  if training_format ≠ "" ∧ training_format ∉ TRAINING_FORMATS then
    (false, "Ungültiges Trainingsformat: " ++ training_format ++ ". Erlaubt: "
      ++ String.intercalate ", " TRAINING_FORMATS)
  else
    (true, "")

/-- The allow-list exactly as the specification's claim enumerates it
(spec-side definition, used to compare the claim's table with the source's). -/
def claimAllowList : String → List String
  | "lead" => ["appointment_scheduled", "initial_contact", "proposal_sent"]
  | "appointment_scheduled" => ["initial_contact", "proposal_sent", "lead"]
  | "initial_contact" => ["proposal_sent", "lead"]
  | "proposal_sent" => ["trainer_outreach", "lead"]
  | "trainer_outreach" => ["trainer_confirmed", "proposal_sent"]
  | "trainer_confirmed" => ["planning", "trainer_outreach"]
  | "planning" => ["delivered", "trainer_confirmed"]
  | "delivered" => ["invoiced", "planning"]
  | "invoiced" => ["delivered"]
  | _ => []

/-- C1: for every pair of statuses drawn from the nine defined training
statuses, `validate_status_transition` succeeds (true with empty message) iff
the requested status equals the current one or lies in the claim's allow-list
for the current one; in every other such case it fails with the error message
naming the allowed set. -/
theorem validate_status_transition_matches_allowlist :
    ∀ c ∈ TRAINING_STATUSES, ∀ r ∈ TRAINING_STATUSES,
      (validate_status_transition c r = (true, "") ↔ (r = c ∨ r ∈ claimAllowList c))
      ∧ (¬(r = c ∨ r ∈ claimAllowList c) →
          validate_status_transition c r =
            (false, "Status-Übergang von '" ++ c ++ "' zu '" ++ r
              ++ "' nicht erlaubt. Erlaubt: " ++ String.intercalate ", " (claimAllowList c))) := by
  decide

/-- C1 witness: concrete evaluation at `("lead", "delivered")`. -/
theorem validate_status_transition_matches_allowlist_witness :
    (validate_status_transition "lead" "delivered" = (true, "")
      ↔ ("delivered" = "lead" ∨ "delivered" ∈ claimAllowList "lead"))
    ∧ (¬("delivered" = "lead" ∨ "delivered" ∈ claimAllowList "lead") →
        validate_status_transition "lead" "delivered" =
          (false, "Status-Übergang von '" ++ "lead" ++ "' zu '" ++ "delivered"
            ++ "' nicht erlaubt. Erlaubt: "
            ++ String.intercalate ", " (claimAllowList "lead"))) :=
  validate_status_transition_matches_allowlist "lead" (by decide) "delivered" (by decide)

/-- C9: whenever the requested status is not one of the nine defined statuses,
`validate_status_transition` fails with the invalid-status message — even when
the requested status equals the current one, because the membership check
precedes the no-op equality check. -/
theorem validate_status_transition_rejects_unknown_status
    (current_status new_status : String) (h : new_status ∉ TRAINING_STATUSES) :
    validate_status_transition current_status new_status =
      (false, "Ungültiger Status: " ++ new_status ++ ". Erlaubt: "
        ++ String.intercalate ", " TRAINING_STATUSES) := by
  simp only [validate_status_transition, if_pos h]

/-- C9 witness: the unknown status `"archived"` is rejected even as a no-op. -/
theorem validate_status_transition_rejects_unknown_status_witness :
    "archived" ∉ TRAINING_STATUSES
    ∧ validate_status_transition "archived" "archived" =
        (false, "Ungültiger Status: " ++ "archived" ++ ". Erlaubt: "
          ++ String.intercalate ", " TRAINING_STATUSES) :=
  ⟨by decide, validate_status_transition_rejects_unknown_status "archived" "archived" (by decide)⟩

/-- C6 counterexample: the empty string is a string value different from
`"online"` and `"classroom"`, yet `validate_training_type` accepts it (and the
same holds for `validate_training_format`), because the Python guard
`if training_type and ...` treats the empty string as falsy. -/
theorem validate_training_type_accepts_empty :
    ("" ≠ "online" ∧ "" ≠ "classroom" ∧ validate_training_type "" = (true, ""))
    ∧ ("" ≠ "inhouse" ∧ "" ≠ "public" ∧ validate_training_format "" = (true, "")) := by
  decide

/-- C6 (amended): every non-empty string outside the two-element type
enumeration is rejected by `validate_training_type` with a descriptive error,
and every non-empty string outside the format enumeration is rejected by
`validate_training_format` with a descriptive error. -/
theorem validate_type_and_format_reject_nonmember (v : String) (hv : v ≠ "") :
    (v ∉ TRAINING_TYPES →
      validate_training_type v =
        (false, "Ungültiger Trainingstyp: " ++ v ++ ". Erlaubt: "
          ++ String.intercalate ", " TRAINING_TYPES))
    ∧ (v ∉ TRAINING_FORMATS →
      validate_training_format v =
        (false, "Ungültiges Trainingsformat: " ++ v ++ ". Erlaubt: "
          ++ String.intercalate ", " TRAINING_FORMATS)) := by
  constructor
  · intro ht
    simp only [validate_training_type, if_pos (And.intro hv ht)]
  · intro hf
    simp only [validate_training_format, if_pos (And.intro hv hf)]

/-- C6 witness: the value `"hybrid"` is rejected by both validators. -/
theorem validate_type_and_format_reject_nonmember_witness :
    ("hybrid" ≠ "" ∧ "hybrid" ∉ TRAINING_TYPES ∧ "hybrid" ∉ TRAINING_FORMATS)
    ∧ validate_training_type "hybrid" =
        (false, "Ungültiger Trainingstyp: " ++ "hybrid" ++ ". Erlaubt: "
          ++ String.intercalate ", " TRAINING_TYPES)
    ∧ validate_training_format "hybrid" =
        (false, "Ungültiges Trainingsformat: " ++ "hybrid" ++ ". Erlaubt: "
          ++ String.intercalate ", " TRAINING_FORMATS) :=
  ⟨⟨by decide, by decide, by decide⟩,
    (validate_type_and_format_reject_nonmember "hybrid" (by decide)).1 (by decide),
    (validate_type_and_format_reject_nonmember "hybrid" (by decide)).2 (by decide)⟩

/-- The fields of the `Training` row that the verified operations read or
write (`models/core.py`, class `Training`); dates are modelled as day
numbers.  `trainer_id` is nullable, `training_type` is a nullable enum. -/
structure Training where
  id : Nat
  training_type : Option String
  status : String
  start_date : Option Int
  brand_id : Nat
  trainer_id : Option Nat
deriving DecidableEq

/-- The fields of a `TrainingTask` row that `generate_tasks` populates
(`models/core.py`, class `TrainingTask`). -/
structure TrainingTask where
  title : String
  is_required : Bool
  status : String
  due_date : Option Int
  assignee : String
deriving DecidableEq

/-- `ONLINE_DEFAULT_TASKS` from `services/checklist.py`. -/
def ONLINE_DEFAULT_TASKS : List String :=
  ["Teams-Termin anlegen", "Besprechungslink einfügen", "Teilnehmer-Einladungen verschicken"]

/-- `CLASSROOM_DEFAULT_TASKS` from `services/checklist.py`. -/
def CLASSROOM_DEFAULT_TASKS : List String :=
  ["Location final bestätigen", "Catering bestellen", "Wegbeschreibung und Parkhinweise senden"]

/-- `_base_tasks_for_training` from `services/checklist.py`: the online list
when `training_type == "online"`, otherwise the classroom list. -/
def base_tasks_for_training (training : Training) : List String :=
  if training.training_type = some "online" then ONLINE_DEFAULT_TASKS
  else CLASSROOM_DEFAULT_TASKS

/-- The per-task due date of `generate_tasks`:
`due_date or (training.start_date - timedelta(days=7) if training.start_date else None)`.
A `date` object is always truthy in Python, so the `or` picks the explicit
argument exactly when it is not `None`. -/
def task_due_date (training : Training) (due_date : Option Int) : Option Int :=
  match due_date with
  | some d => some d
  | none =>
    match training.start_date with
    | some s => some (s - 7)
    | none => none

/-- `generate_tasks` from `services/checklist.py`: one `TrainingTask` per
base-task title, each `open`, required, assigned to `Backoffice`. -/
def generate_tasks (training : Training) (due_date : Option Int) : List TrainingTask :=
  (base_tasks_for_training training).map (fun title =>
    { title := title
    , is_required := true
    , status := "open"
    , due_date := task_due_date training due_date
    , assignee := "Backoffice" })

/-- C7: an online training yields exactly the three fixed online tasks in
order, a classroom training exactly the three fixed classroom tasks in order;
every task is `open`, required, assigned to `Backoffice`, and when no explicit
due date is supplied the due date is the start date minus 7 days if a start
date exists, else absent.  `generate_tasks` is a pure function of the
training's fields. -/
theorem generate_tasks_fixed_lists (t : Training) (d : Option Int) :
    (t.training_type = some "online" →
      generate_tasks t d =
        [ ⟨"Teams-Termin anlegen", true, "open", task_due_date t d, "Backoffice"⟩
        , ⟨"Besprechungslink einfügen", true, "open", task_due_date t d, "Backoffice"⟩
        , ⟨"Teilnehmer-Einladungen verschicken", true, "open", task_due_date t d, "Backoffice"⟩ ])
    ∧ (t.training_type = some "classroom" →
      generate_tasks t d =
        [ ⟨"Location final bestätigen", true, "open", task_due_date t d, "Backoffice"⟩
        , ⟨"Catering bestellen", true, "open", task_due_date t d, "Backoffice"⟩
        , ⟨"Wegbeschreibung und Parkhinweise senden", true, "open", task_due_date t d, "Backoffice"⟩ ])
    ∧ (d = none → t.start_date = none → task_due_date t d = none)
    ∧ (∀ s, d = none → t.start_date = some s → task_due_date t d = some (s - 7)) := by
  refine ⟨?_, ?_, ?_, ?_⟩
  · intro h
    simp [generate_tasks, base_tasks_for_training, h, ONLINE_DEFAULT_TASKS]
  · intro h
    simp [generate_tasks, base_tasks_for_training, h, CLASSROOM_DEFAULT_TASKS]
  · intro hd hs
    simp [task_due_date, hd, hs]
  · intro s hd hs
    simp [task_due_date, hd, hs]

/-- C7 witness: a concrete online training with start date 100 and no explicit
due date receives the three online tasks due on day 93. -/
theorem generate_tasks_fixed_lists_witness :
    generate_tasks ⟨1, some "online", "lead", some 100, 1, none⟩ none =
      [ ⟨"Teams-Termin anlegen", true, "open", some 93, "Backoffice"⟩
      , ⟨"Besprechungslink einfügen", true, "open", some 93, "Backoffice"⟩
      , ⟨"Teilnehmer-Einladungen verschicken", true, "open", some 93, "Backoffice"⟩ ] := by
  have h := (generate_tasks_fixed_lists ⟨1, some "online", "lead", some 100, 1, none⟩ none).1 rfl
  simpa [task_due_date] using h

/-- C10: `generate_tasks` is total and returns the classroom task list for
every training whose `training_type` is not the string `"online"` — including
an unset type or a value outside the enumeration; it never rejects such a
training. -/
theorem generate_tasks_defaults_to_classroom (t : Training) (d : Option Int)
    (h : t.training_type ≠ some "online") :
    generate_tasks t d =
      [ ⟨"Location final bestätigen", true, "open", task_due_date t d, "Backoffice"⟩
      , ⟨"Catering bestellen", true, "open", task_due_date t d, "Backoffice"⟩
      , ⟨"Wegbeschreibung und Parkhinweise senden", true, "open", task_due_date t d, "Backoffice"⟩ ] := by
  simp [generate_tasks, base_tasks_for_training, h, CLASSROOM_DEFAULT_TASKS]

/-- C10 witness: a training with unset type receives the classroom tasks. -/
theorem generate_tasks_defaults_to_classroom_witness :
    generate_tasks ⟨2, none, "lead", none, 1, none⟩ none =
      [ ⟨"Location final bestätigen", true, "open", none, "Backoffice"⟩
      , ⟨"Catering bestellen", true, "open", none, "Backoffice"⟩
      , ⟨"Wegbeschreibung und Parkhinweise senden", true, "open", none, "Backoffice"⟩ ] := by
  have h := generate_tasks_defaults_to_classroom ⟨2, none, "lead", none, 1, none⟩ none (by decide)
  simpa [task_due_date] using h

/-- Python's single-character `str.replace(old, new)` on a string viewed as a
character list: every occurrence of `old` becomes the list `new`. -/
def replace_char (old : Char) (new : List Char) (s : List Char) : List Char :=
  s.bind (fun c => if c = old then new else [c])

/-- `escape_like_wildcards` from `utils/search.py`:
`value.replace('\\', '\\\\').replace('%', '\\%').replace('_', '\\_')`. -/
def escape_like_wildcards (value : List Char) : List Char :=
  replace_char '_' ['\\', '_'] (replace_char '%' ['\\', '%'] (replace_char '\\' ['\\', '\\'] value))

/-- The LIKE pattern built by `search_everywhere` in `utils/search.py`:
the query is lowercased, escaped, and wrapped in `%...%`. -/
def search_like_pattern (query : List Char) : List Char :=
  '%' :: (escape_like_wildcards (query.map Char.toLower) ++ ['%'])

/-- The claim's description of the escaping, character by character: every
backslash is doubled and every `%` and `_` is preceded by a backslash. -/
def spec_escape : List Char → List Char
  | [] => []
  | c :: rest =>
    (if c = '\\' then ['\\', '\\']
     else if c = '%' then ['\\', '%']
     else if c = '_' then ['\\', '_']
     else [c]) ++ spec_escape rest

/-- Scanner for LIKE patterns: `true` iff some `%` or `_` occurs that is not
preceded by an escaping backslash (a backslash consumes the next character). -/
def has_unescaped_wildcard : List Char → Bool
  | [] => false
  | c :: rest =>
    if c = '\\' then
      match rest with
      | [] => false
      | _ :: rest2 => has_unescaped_wildcard rest2
    else if c = '%' then true
    else if c = '_' then true
    else has_unescaped_wildcard rest

theorem escape_like_wildcards_cons (c : Char) (s : List Char) :
    escape_like_wildcards (c :: s) = escape_like_wildcards [c] ++ escape_like_wildcards s := by
  simp [escape_like_wildcards, replace_char, List.cons_bind, List.append_bind]

theorem escape_like_wildcards_single (c : Char) :
    escape_like_wildcards [c] =
      (if c = '\\' then ['\\', '\\']
       else if c = '%' then ['\\', '%']
       else if c = '_' then ['\\', '_']
       else [c]) := by
  by_cases h1 : c = '\\'
  · subst h1; decide
  · by_cases h2 : c = '%'
    · subst h2; decide
    · by_cases h3 : c = '_'
      · subst h3; decide
      · simp [escape_like_wildcards, replace_char, h1, h2, h3]

theorem escape_like_wildcards_eq_spec (s : List Char) :
    escape_like_wildcards s = spec_escape s := by
  induction s with
  | nil => rfl
  | cons c rest ih =>
    rw [escape_like_wildcards_cons, escape_like_wildcards_single, ih]
    simp [spec_escape]

theorem has_unescaped_wildcard_cons_of_ne (c : Char) (rest : List Char)
    (h1 : c ≠ '\\') (h2 : c ≠ '%') (h3 : c ≠ '_') :
    has_unescaped_wildcard (c :: rest) = has_unescaped_wildcard rest := by
  cases rest <;> simp [has_unescaped_wildcard, h1, h2, h3]

theorem spec_escape_no_unescaped (s : List Char) :
    has_unescaped_wildcard (spec_escape s) = false := by
  induction s with
  | nil => rfl
  | cons c rest ih =>
    by_cases h1 : c = '\\'
    · subst h1; simpa [spec_escape, has_unescaped_wildcard] using ih
    · by_cases h2 : c = '%'
      · subst h2; simpa [spec_escape, has_unescaped_wildcard] using ih
      · by_cases h3 : c = '_'
        · subst h3; simpa [spec_escape, has_unescaped_wildcard] using ih
        · have hb : spec_escape (c :: rest) = c :: spec_escape rest := by
            simp [spec_escape, h1, h2, h3]
          rw [hb, has_unescaped_wildcard_cons_of_ne c _ h1 h2 h3]
          exact ih

/-- C8: the LIKE pattern used by the global search equals `%` ++ e ++ `%`
where e is the query lowercased and escaped exactly as the claim describes
(backslashes doubled, `%` and `_` preceded by a backslash); consequently no
`%` or `_` originating from the query remains unescaped in e. -/
theorem search_like_pattern_escapes (query : List Char) :
    search_like_pattern query = '%' :: (spec_escape (query.map Char.toLower) ++ ['%'])
    ∧ has_unescaped_wildcard (escape_like_wildcards (query.map Char.toLower)) = false := by
  constructor
  · simp [search_like_pattern, escape_like_wildcards_eq_spec]
  · rw [escape_like_wildcards_eq_spec]
    exact spec_escape_no_unescaped _

/-- The fields of a `TrainerApplication` row used by the acceptance handler
(`models/core.py`, class `TrainerApplication`). -/
structure TrainerApplication where
  id : Nat
  training_id : Nat
  trainer_id : Nat
  status : String
deriving DecidableEq

/-- The two tables read and written by `accept_training_application`. -/
structure AcceptState where
  trainings : List Training
  applications : List TrainerApplication
deriving DecidableEq

/-- Python truthiness of the nullable integer column `trainer_id` as tested
by `if training.trainer_id:` — `None` and `0` are falsy. -/
def truthy_id : Option Nat → Bool
  | none => false
  | some n => n != 0

/-- `accept_training_application` from `flask_app.py` (admin route
`POST /admin/training-applications/<app_id>/accept`), restricted to its
database effects: look up the application, require it pending, look up its
training, require no trainer assigned; then assign the applicant as trainer,
mark the application accepted, and mark every other pending application for
the same training rejected — all committed by the single `db.commit()` at the
end, which the embedding reflects as one atomic state transition.  Every
error return happens before any mutation, so those branches return the input
state unchanged.  (The follow-up notification emails touch no table modelled
here.) -/
def accept_training_application (st : AcceptState) (app_id : Nat) :
    AcceptState × Except String Unit :=
  match st.applications.find? (fun a => a.id == app_id) with
  | none => (st, Except.error "Application not found")
  | some application =>
    if application.status ≠ "pending" then
      (st, Except.error "Application already processed")
    else
      match st.trainings.find? (fun t => t.id == application.training_id) with
      | none => (st, Except.error "Training not found")
      | some training =>
        if truthy_id training.trainer_id then
          (st, Except.error "Training already has a trainer assigned")
        else
          ({ trainings :=
              st.trainings.map (fun t =>
                if t.id == application.training_id then
                  { t with trainer_id := some application.trainer_id }
                else t)
           , applications :=
              st.applications.map (fun a =>
                if a.id == app_id then { a with status := "accepted" }
                else if a.training_id == application.training_id && a.status == "pending" then
                  { a with status := "rejected" }
                else a) }
          , Except.ok ())

/-- C2: accepting a pending application whose training has no trainer
assigned succeeds and, in one atomic state transition, assigns the
applicant's trainer id to the training, marks the accepted application
`accepted`, marks every other pending application for the same training
`rejected`, and leaves applications for other trainings as well as
non-pending applications unchanged. -/
theorem accept_training_application_accepts
    (st : AcceptState) (app_id : Nat) (A : TrainerApplication) (T : Training)
    (hA : st.applications.find? (fun a => a.id == app_id) = some A)
    (hpend : A.status = "pending")
    (hT : st.trainings.find? (fun t => t.id == A.training_id) = some T)
    (hfree : T.trainer_id = none) :
    (accept_training_application st app_id).2 = Except.ok ()
    ∧ (accept_training_application st app_id).1.trainings =
        st.trainings.map (fun t =>
          if t.id == A.training_id then { t with trainer_id := some A.trainer_id } else t)
    ∧ (accept_training_application st app_id).1.applications =
        st.applications.map (fun a =>
          if a.id == app_id then { a with status := "accepted" }
          else if a.training_id == A.training_id && a.status == "pending" then
            { a with status := "rejected" }
          else a)
    ∧ { A with status := "accepted" } ∈ (accept_training_application st app_id).1.applications
    ∧ { T with trainer_id := some A.trainer_id } ∈ (accept_training_application st app_id).1.trainings
    ∧ (∀ a ∈ st.applications, a.id ≠ app_id → a.training_id ≠ A.training_id →
        a ∈ (accept_training_application st app_id).1.applications)
    ∧ (∀ a ∈ st.applications, a.id ≠ app_id → a.status ≠ "pending" →
        a ∈ (accept_training_application st app_id).1.applications) := by
  have hrun : accept_training_application st app_id =
      ({ trainings :=
          st.trainings.map (fun t =>
            if t.id == A.training_id then { t with trainer_id := some A.trainer_id } else t)
       , applications :=
          st.applications.map (fun a =>
            if a.id == app_id then { a with status := "accepted" }
            else if a.training_id == A.training_id && a.status == "pending" then
              { a with status := "rejected" }
            else a) }
      , Except.ok ()) := by
    simp [accept_training_application, hA, hpend, hT, hfree, truthy_id]
  have hmemA : A ∈ st.applications := List.mem_of_find?_eq_some hA
  have hidA : (A.id == app_id) = true := by simpa using List.find?_some hA
  have hmemT : T ∈ st.trainings := List.mem_of_find?_eq_some hT
  have hidT : (T.id == A.training_id) = true := by simpa using List.find?_some hT
  rw [hrun]
  refine ⟨rfl, rfl, rfl, ?_, ?_, ?_, ?_⟩
  · have hfa : (fun a : TrainerApplication =>
        if a.id == app_id then { a with status := "accepted" }
        else if a.training_id == A.training_id && a.status == "pending" then
          { a with status := "rejected" }
        else a) A = { A with status := "accepted" } := by
      simp [hidA]
    exact hfa ▸ List.mem_map_of_mem _ hmemA
  · have hft : (fun t : Training =>
        if t.id == A.training_id then { t with trainer_id := some A.trainer_id } else t) T
          = { T with trainer_id := some A.trainer_id } := by
      simp [hidT]
    exact hft ▸ List.mem_map_of_mem _ hmemT
  · intro a hmem hne htr
    have hfa : (fun a : TrainerApplication =>
        if a.id == app_id then { a with status := "accepted" }
        else if a.training_id == A.training_id && a.status == "pending" then
          { a with status := "rejected" }
        else a) a = a := by
      simp [hne, htr]
    exact hfa ▸ List.mem_map_of_mem _ hmem
  · intro a hmem hne hst
    have hfa : (fun a : TrainerApplication =>
        if a.id == app_id then { a with status := "accepted" }
        else if a.training_id == A.training_id && a.status == "pending" then
          { a with status := "rejected" }
        else a) a = a := by
      simp [hne, hst]
    exact hfa ▸ List.mem_map_of_mem _ hmem

/-- C2 witness: a concrete state with two pending applications for training
10, one pending application for training 11 and one already-rejected
application; accepting application 1 assigns trainer 100 to training 10,
rejects the other pending application for training 10, and leaves the rest
alone. -/
theorem accept_training_application_accepts_witness :
    (accept_training_application
        ⟨[⟨10, none, "lead", none, 1, none⟩, ⟨11, none, "lead", none, 1, some 5⟩],
         [⟨1, 10, 100, "pending"⟩, ⟨2, 10, 200, "pending"⟩,
          ⟨3, 11, 100, "pending"⟩, ⟨4, 10, 300, "rejected"⟩]⟩ 1).2 = Except.ok ()
    ∧ (accept_training_application
        ⟨[⟨10, none, "lead", none, 1, none⟩, ⟨11, none, "lead", none, 1, some 5⟩],
         [⟨1, 10, 100, "pending"⟩, ⟨2, 10, 200, "pending"⟩,
          ⟨3, 11, 100, "pending"⟩, ⟨4, 10, 300, "rejected"⟩]⟩ 1).1.trainings =
        [⟨10, none, "lead", none, 1, some 100⟩, ⟨11, none, "lead", none, 1, some 5⟩]
    ∧ (accept_training_application
        ⟨[⟨10, none, "lead", none, 1, none⟩, ⟨11, none, "lead", none, 1, some 5⟩],
         [⟨1, 10, 100, "pending"⟩, ⟨2, 10, 200, "pending"⟩,
          ⟨3, 11, 100, "pending"⟩, ⟨4, 10, 300, "rejected"⟩]⟩ 1).1.applications =
        [⟨1, 10, 100, "accepted"⟩, ⟨2, 10, 200, "rejected"⟩,
         ⟨3, 11, 100, "pending"⟩, ⟨4, 10, 300, "rejected"⟩] := by
  have h := accept_training_application_accepts
      ⟨[⟨10, none, "lead", none, 1, none⟩, ⟨11, none, "lead", none, 1, some 5⟩],
       [⟨1, 10, 100, "pending"⟩, ⟨2, 10, 200, "pending"⟩,
        ⟨3, 11, 100, "pending"⟩, ⟨4, 10, 300, "rejected"⟩]⟩ 1
      ⟨1, 10, 100, "pending"⟩ ⟨10, none, "lead", none, 1, none⟩
      (by decide) rfl (by decide) rfl
  refine ⟨h.1, ?_, ?_⟩
  · rw [h.2.1]; decide
  · rw [h.2.2.1]; decide

/-- C3: accepting any existing application whose training already has a
(positive) trainer id assigned fails with an error response, and the failed
call leaves every training and application row unchanged.  All error returns
in the handler occur before any assignment, which the embedding makes
explicit by returning the input state.  (Primary keys issued by the database
start at 1, so the assigned trainer id is assumed positive; the Python
truthiness test `if training.trainer_id:` would treat a literal 0 as
unassigned.) -/
theorem accept_training_application_fails_when_assigned
    (st : AcceptState) (app_id : Nat) (A : TrainerApplication) (T : Training) (tid : Nat)
    (hA : st.applications.find? (fun a => a.id == app_id) = some A)
    (hT : st.trainings.find? (fun t => t.id == A.training_id) = some T)
    (hassigned : T.trainer_id = some tid) (hpos : tid ≠ 0) :
    (accept_training_application st app_id).1 = st
    ∧ ∃ msg, (accept_training_application st app_id).2 = Except.error msg := by
  by_cases hp : A.status = "pending"
  · have hrun : accept_training_application st app_id =
        (st, Except.error "Training already has a trainer assigned") := by
      simp [accept_training_application, hA, hp, hT, hassigned, truthy_id, hpos]
    rw [hrun]
    exact ⟨rfl, "Training already has a trainer assigned", rfl⟩
  · have hrun : accept_training_application st app_id =
        (st, Except.error "Application already processed") := by
      simp [accept_training_application, hA, hp]
    rw [hrun]
    exact ⟨rfl, "Application already processed", rfl⟩

/-- C3 witness: training 10 already has trainer 7; accepting the pending
application 1 fails and changes nothing. -/
theorem accept_training_application_fails_when_assigned_witness :
    (accept_training_application
        ⟨[⟨10, none, "lead", none, 1, some 7⟩], [⟨1, 10, 100, "pending"⟩]⟩ 1).1 =
      ⟨[⟨10, none, "lead", none, 1, some 7⟩], [⟨1, 10, 100, "pending"⟩]⟩
    ∧ ∃ msg, (accept_training_application
        ⟨[⟨10, none, "lead", none, 1, some 7⟩], [⟨1, 10, 100, "pending"⟩]⟩ 1).2 =
        Except.error msg :=
  accept_training_application_fails_when_assigned
    ⟨[⟨10, none, "lead", none, 1, some 7⟩], [⟨1, 10, 100, "pending"⟩]⟩ 1
    ⟨1, 10, 100, "pending"⟩ ⟨10, none, "lead", none, 1, some 7⟩ 7
    (by decide) (by decide) rfl (by decide)

/-- An `ActivityLog` row (`models/core.py`, class `ActivityLog`). -/
structure ActivityLog where
  training_id : Nat
  message : String
  created_by : String
deriving DecidableEq

/-- The tables read and written by the training-update handlers. -/
structure TrainingDB where
  trainings : List Training
  activity_logs : List ActivityLog
deriving DecidableEq

/-- `update_training` from `flask_app.py` (`PUT /trainings/<id>`), restricted
to its effect on the training's status and the activity log.  `status_field`
is `some s` when the JSON body contains the key `status` with value `s` and
`none` when it does not; the handler validates the transition only when the
supplied status differs from the current one, returns 400 before any mutation
when validation fails, and otherwise patches the row and appends one activity
log recording the old and new status and the acting user, all under one
commit.  The body's other patchable fields touch neither the status nor the
activity log and are not modelled. -/
def update_training (db : TrainingDB) (username : String) (training_id : Nat)
    (status_field : Option String) : TrainingDB × Except String Unit :=
  match db.trainings.find? (fun t => t.id == training_id) with
  | none => (db, Except.error "Training not found")
  | some training =>
    let validation : Except String Unit :=
      match status_field with
      | some s =>
        if s ≠ training.status then
          if (validate_status_transition training.status s).1 then Except.ok ()
          else Except.error (validate_status_transition training.status s).2
        else Except.ok ()
      | none => Except.ok ()
    match validation with
    | Except.error msg => (db, Except.error msg)
    | Except.ok _ =>
      let old_status := training.status
      let new_status := status_field.getD old_status
      ({ trainings := db.trainings.map (fun t =>
            if t.id == training_id then { t with status := new_status } else t)
       , activity_logs :=
          if old_status ≠ new_status then
            db.activity_logs ++
              [⟨training_id, "Status geändert: " ++ old_status ++ " → " ++ new_status, username⟩]
          else db.activity_logs }
      , Except.ok ())

/-- `update_status` from `routers/trainings.py`
(`POST /trainings/{training_id}/status`): sets the status without validating
the transition and unconditionally appends an activity log naming the new
status and the acting user — also when the requested status equals the
current one. -/
def update_status (db : TrainingDB) (username : String) (training_id : Nat)
    (status : String) : TrainingDB × Except String String :=
  match db.trainings.find? (fun t => t.id == training_id) with
  | none => (db, Except.error "Training not found")
  | some _ =>
    ({ trainings := db.trainings.map (fun t =>
          if t.id == training_id then { t with status := status } else t)
     , activity_logs := db.activity_logs ++
         [⟨training_id, "Status auf " ++ status ++ " gesetzt von " ++ username, username⟩] }
    , Except.ok status)

/-- C4 counterexample: the repository's FastAPI status endpoint
(`update_status`) appends an activity-log row even when the requested status
equals the training's current status, so a no-op training-update request does
not leave the activity log untouched: training 1 has status `lead`, the
request sets status `lead`, the call succeeds and one log row is appended. -/
theorem update_status_noop_appends_log :
    (update_status ⟨[⟨1, none, "lead", none, 1, none⟩], []⟩ "admin" 1 "lead").2 =
      Except.ok "lead"
    ∧ (update_status ⟨[⟨1, none, "lead", none, 1, none⟩], []⟩ "admin" 1 "lead").1.activity_logs =
        [⟨1, "Status auf lead gesetzt von admin", "admin"⟩] :=
  ⟨rfl, rfl⟩

/-- C4 (amended, for the flask `update_training` handler): when the supplied
status differs from the current one and the transition is allowed, the update
succeeds and appends exactly one activity-log row recording the old and new
status and the acting user; when the supplied status equals the current one,
or no status is supplied, the update succeeds and appends no activity-log
row. -/
theorem update_training_logs_exactly_on_status_change
    (db : TrainingDB) (username : String) (tid : Nat) (T : Training)
    (hT : db.trainings.find? (fun t => t.id == tid) = some T) :
    (∀ s, s ≠ T.status → (validate_status_transition T.status s).1 = true →
      (update_training db username tid (some s)).2 = Except.ok ()
      ∧ (update_training db username tid (some s)).1.activity_logs =
          db.activity_logs ++
            [⟨tid, "Status geändert: " ++ T.status ++ " → " ++ s, username⟩])
    ∧ ((update_training db username tid (some T.status)).2 = Except.ok ()
      ∧ (update_training db username tid (some T.status)).1.activity_logs = db.activity_logs)
    ∧ ((update_training db username tid none).2 = Except.ok ()
      ∧ (update_training db username tid none).1.activity_logs = db.activity_logs) := by
  refine ⟨?_, ?_, ?_⟩
  · intro s hs hv
    have hs2 : T.status ≠ s := Ne.symm hs
    constructor
    · simp [update_training, hT, hs, hv]
    · simp [update_training, hT, hs, hv, hs2]
  · constructor
    · simp [update_training, hT]
    · simp [update_training, hT]
  · constructor
    · simp [update_training, hT]
    · simp [update_training, hT]

/-- C4 witness: training 1 in status `lead`; updating to `proposal_sent`
(an allowed transition) appends exactly the one status-change log row, and a
no-op update to `lead` appends none. -/
theorem update_training_logs_exactly_on_status_change_witness :
    ((update_training ⟨[⟨1, none, "lead", none, 1, none⟩], []⟩ "admin" 1
        (some "proposal_sent")).2 = Except.ok ()
      ∧ (update_training ⟨[⟨1, none, "lead", none, 1, none⟩], []⟩ "admin" 1
          (some "proposal_sent")).1.activity_logs =
          [⟨1, "Status geändert: lead → proposal_sent", "admin"⟩])
    ∧ ((update_training ⟨[⟨1, none, "lead", none, 1, none⟩], []⟩ "admin" 1
        (some "lead")).2 = Except.ok ()
      ∧ (update_training ⟨[⟨1, none, "lead", none, 1, none⟩], []⟩ "admin" 1
          (some "lead")).1.activity_logs = []) := by
  have h := update_training_logs_exactly_on_status_change
      ⟨[⟨1, none, "lead", none, 1, none⟩], []⟩ "admin" 1 ⟨1, none, "lead", none, 1, none⟩
      (by decide)
  have h1 := h.1 "proposal_sent" (by decide) (by decide)
  refine ⟨⟨h1.1, ?_⟩, h.2.1⟩
  rw [h1.2]
  decide

/-- A `Trainer` row as used by the listing endpoint (`models/core.py`,
class `Trainer`): its id and contact email. -/
structure Trainer where
  id : Nat
  email : String
deriving DecidableEq

/-- The authenticated caller of the listing endpoint: role and email. -/
structure ListUser where
  role : String
  email : String
deriving DecidableEq

/-- The `brand_id` / `status` query filters of the FastAPI `list_trainings`
(`routers/trainings.py`).  The Python guards are `if brand_id:` and
`if status:`, so a zero brand id and an empty status string are skipped. -/
def apply_training_filters (ts : List Training) (brand_id : Option Nat)
    (status : Option String) : List Training :=
  let ts1 :=
    match brand_id with
    | some b => if b ≠ 0 then ts.filter (fun t => t.brand_id == b) else ts
    | none => ts
  match status with
  | some s => if s ≠ "" then ts1.filter (fun t => t.status == s) else ts1
  | none => ts1

/-- Which trainings the supplied query filters keep. -/
def matches_filters (t : Training) (brand_id : Option Nat)
    (status : Option String) : Bool :=
  (match brand_id with
   | some b => if b ≠ 0 then t.brand_id == b else true
   | none => true)
  && (match status with
      | some s => if s ≠ "" then t.status == s else true
      | none => true)

/-- `list_trainings` from `routers/trainings.py` (`GET /trainings`): a
trainer-role caller is restricted to trainings assigned to the trainer row
whose email equals the caller's email (the empty list when no such row
exists); other roles see every training matching the query filters.  The
final ordering by start date — a permutation that the verified claims do not
depend on — is not modelled. -/
def fastapi_list_trainings (trainings : List Training) (trainers : List Trainer)
    (current_user : ListUser) (brand_id : Option Nat) (status : Option String) :
    List Training :=
  if current_user.role = "trainer" then
    match trainers.find? (fun tr => tr.email == current_user.email) with
    | none => []
    | some tr =>
        apply_training_filters (trainings.filter (fun t => t.trainer_id == some tr.id))
          brand_id status
  else
    apply_training_filters trainings brand_id status

/-- `list_trainings` from `flask_app.py` (`GET /trainings`): returns the
`skip`/`limit` page of all trainings for every authenticated caller, with no
role-based restriction at all. -/
def flask_list_trainings (trainings : List Training) (skip limit : Nat) :
    List Training :=
  (trainings.drop skip).take limit

theorem mem_apply_training_filters (ts : List Training) (brand_id : Option Nat)
    (status : Option String) (t : Training) :
    t ∈ apply_training_filters ts brand_id status ↔
      t ∈ ts ∧ matches_filters t brand_id status = true := by
  cases brand_id with
  | none =>
    cases status with
    | none => simp [apply_training_filters, matches_filters]
    | some s =>
      by_cases hs : s = ""
      · simp [apply_training_filters, matches_filters, hs]
      · simp [apply_training_filters, matches_filters, hs, List.mem_filter]
  | some b =>
    by_cases hb : b = 0
    · cases status with
      | none => simp [apply_training_filters, matches_filters, hb]
      | some s =>
        by_cases hs : s = ""
        · simp [apply_training_filters, matches_filters, hb, hs]
        · simp [apply_training_filters, matches_filters, hb, hs, List.mem_filter]
    · cases status with
      | none => simp [apply_training_filters, matches_filters, hb, List.mem_filter]
      | some s =>
        by_cases hs : s = ""
        · simp [apply_training_filters, matches_filters, hb, hs, List.mem_filter]
        · simp [apply_training_filters, matches_filters, hb, hs, List.mem_filter]
          tauto

/-- C5 counterexample: the repository's flask `list_trainings` endpoint
returns every training to any authenticated caller — it never consults the
caller's role or trainer link.  Concretely: a trainer-role caller whose email
matches trainer row 1 receives a training whose `trainer_id` is 2. -/
theorem flask_list_trainings_ignores_role :
    flask_list_trainings [⟨1, none, "lead", none, 1, some 2⟩] 0 100 =
      [⟨1, none, "lead", none, 1, some 2⟩]
    ∧ ([⟨1, "trainer1@example.com"⟩] : List Trainer).find?
        (fun tr => tr.email == "trainer1@example.com") = some ⟨1, "trainer1@example.com"⟩
    ∧ (⟨1, none, "lead", none, 1, some 2⟩ : Training).trainer_id ≠ some 1 := by
  refine ⟨rfl, by decide, by decide⟩

/-- C5 (amended, for the FastAPI `list_trainings` endpoint): a trainer-role
caller receives only trainings whose `trainer_id` equals the id of the
trainer row matching the caller's email, and the empty list when no trainer
row matches; an admin or backoffice caller receives exactly the trainings
matching the supplied filter criteria. -/
theorem fastapi_list_trainings_role_scoped
    (trainings : List Training) (trainers : List Trainer) (u : ListUser)
    (brand_id : Option Nat) (status : Option String) :
    (u.role = "trainer" →
      (trainers.find? (fun tr => tr.email == u.email) = none →
        fastapi_list_trainings trainings trainers u brand_id status = [])
      ∧ (∀ tr, trainers.find? (fun tr2 => tr2.email == u.email) = some tr →
          ∀ t ∈ fastapi_list_trainings trainings trainers u brand_id status,
            t.trainer_id = some tr.id))
    ∧ ((u.role = "admin" ∨ u.role = "backoffice_user") →
        ∀ t, t ∈ fastapi_list_trainings trainings trainers u brand_id status ↔
          (t ∈ trainings ∧ matches_filters t brand_id status = true)) := by
  constructor
  · intro hrole
    constructor
    · intro hnone
      simp [fastapi_list_trainings, hrole, hnone]
    · intro tr htr t hmem
      rw [fastapi_list_trainings, if_pos hrole, htr] at hmem
      have := (mem_apply_training_filters _ brand_id status t).1 hmem
      have hfil := this.1
      rw [List.mem_filter] at hfil
      simpa using hfil.2
  · intro hrole t
    have hne : u.role ≠ "trainer" := by
      rcases hrole with h | h <;> simp [h]
    rw [fastapi_list_trainings, if_neg hne]
    exact mem_apply_training_filters _ brand_id status t

/-- C5 witness: trainer `a@x` (trainer row 1) sees training 1, which is
assigned to trainer 1, and the theorem yields its `trainer_id`; an admin
caller filtering on brand 1 sees exactly the trainings of brand 1. -/
theorem fastapi_list_trainings_role_scoped_witness :
    ((⟨1, none, "lead", none, 1, some 1⟩ : Training).trainer_id = some 1)
    ∧ ((⟨2, none, "lead", none, 2, some 2⟩ : Training) ∈
        fastapi_list_trainings
          [⟨1, none, "lead", none, 1, some 1⟩, ⟨2, none, "lead", none, 2, some 2⟩]
          [⟨1, "a@x"⟩] ⟨"admin", "b@x"⟩ (some 1) none ↔
        ((⟨2, none, "lead", none, 2, some 2⟩ : Training) ∈
            ([⟨1, none, "lead", none, 1, some 1⟩, ⟨2, none, "lead", none, 2, some 2⟩] :
              List Training)
          ∧ matches_filters ⟨2, none, "lead", none, 2, some 2⟩ (some 1) none = true)) := by
  constructor
  · exact ((fastapi_list_trainings_role_scoped
        [⟨1, none, "lead", none, 1, some 1⟩, ⟨2, none, "lead", none, 2, some 2⟩]
        [⟨1, "a@x"⟩] ⟨"trainer", "a@x"⟩ none none).1 rfl).2
      ⟨1, "a@x"⟩ (by decide) ⟨1, none, "lead", none, 1, some 1⟩ (by decide)
  · exact (fastapi_list_trainings_role_scoped
        [⟨1, none, "lead", none, 1, some 1⟩, ⟨2, none, "lead", none, 2, some 2⟩]
        [⟨1, "a@x"⟩] ⟨"admin", "b@x"⟩ (some 1) none).2 (Or.inl rfl)
      ⟨2, none, "lead", none, 2, some 2⟩
